import Mathlib

/-!
Shallow embedding of the prediction core of the schimidt-trader-system-pro
repository: `server/prediction/prediction_engine.py` (class `PredictionEngine`)
and `server/prediction/amplitude_predictor.py` (class `AmplitudePredictor`).
Python floats are embedded as exact rationals; fields of the mutable engine
object become an explicit `EngineState` threaded through the operations, and
the wall-clock timestamp taken inside `fazer_predicao` becomes an explicit
`now` argument.
-/

namespace SchimidtTrader

/-- A completed historical candle, as consumed from the request dictionaries
(`abertura` = open, `maxima` = high, `minima` = low, `fechamento` = close). -/
structure Candle where
  abertura : ℚ
  maxima : ℚ
  minima : ℚ
  fechamento : ℚ
  deriving DecidableEq, Repr

/-- One stored prediction, mirroring the dictionary built in
`PredictionEngine.fazer_predicao` (the numeric inputs echoed back, the
rounded predicted close, the color/position strings, the phase and algorithm
labels, and the `datetime.now().isoformat()` timestamp). -/
structure Predicao where
  fechamento_predito : ℚ
  cor_predita : String
  posicao : String
  fase_usada : Nat
  algoritmo : String
  timestamp : String
  abertura_usada : ℚ
  maxima_usada : ℚ
  minima_usada : ℚ
  deriving DecidableEq, Repr

/-- The `self.estatisticas` dictionary of `PredictionEngine`. -/
structure Estatisticas where
  total_predicoes : Nat
  acertos : Nat
  assertividade : ℚ
  deriving DecidableEq, Repr

/-- The mutable fields of a `PredictionEngine` instance. -/
structure EngineState where
  fase_detectada : Option Nat
  chave_ativa_fase1 : Option String
  historico_predicoes : List Predicao
  estatisticas : Estatisticas
  deriving DecidableEq, Repr

/-- The state right after `PredictionEngine.__init__`. -/
def initState : EngineState :=
  { fase_detectada := none
    chave_ativa_fase1 := none
    historico_predicoes := []
    estatisticas := { total_predicoes := 0, acertos := 0, assertividade := 0 } }

/-- Round-half-to-even on an exact rational, the tie rule of Python `round`. -/
def roundHalfEven (x : ℚ) : ℤ :=
  let f : ℤ := Int.floor x
  let r : ℚ := x - f
  if r < 1/2 then f
  else if r > 1/2 then f + 1
  else if f % 2 = 0 then f else f + 1

/-- Python `round(x, n)` on the exact rational value. -/
def roundTo (n : Nat) (x : ℚ) : ℚ :=
  (roundHalfEven (x * (10 : ℚ) ^ n) : ℚ) / (10 : ℚ) ^ n

/-- Arithmetic mean of the `abertura` fields (`np.mean(aberturas)` in
`detectar_fase`; only evaluated on nonempty data). -/
def mediaAbertura (dados : List Candle) : ℚ :=
  (dados.map (·.abertura)).sum / (dados.length : ℚ)

/-- Embeds `PredictionEngine.detectar_fase`: on empty data it returns phase 1 at once
without touching `self.fase_detectada`; otherwise it classifies by the mean
open value (phase 2 iff the mean exceeds 1000) and caches the phase. -/
def detectar_fase (s : EngineState) (dados : List Candle) : Nat × EngineState :=
  if dados.isEmpty then (1, s)
  else
    let fase := if mediaAbertura dados > 1000 then 2 else 1
    (fase, { s with fase_detectada := some fase })

/-- Loop body of `PredictionEngine._testar_chave_fase1` on one consecutive
(prior, current) pair: a key function that raises on some input is modelled
as returning `none` there (the `except: continue` skips that pair without
counting it). -/
def conta_chave (funcao_chave : ℚ → Option ℚ) (acc : Nat × Nat)
    (par : Candle × Candle) : Nat × Nat :=
  match funcao_chave par.1.abertura with
  | none => acc
  | some chave_valor =>
    let predicao_cor : Nat := if chave_valor > 1/2 then 1 else 0
    let cor_real : Nat := if par.2.fechamento > par.2.abertura then 1 else 0
    (acc.1 + (if predicao_cor = cor_real then 1 else 0), acc.2 + 1)

/-- Embeds `PredictionEngine._testar_chave_fase1`, parametric in the key
function: the hit/total accumulation of the loop body is `conta_chave` above. -/
def testar_chave_fase1 (dados : List Candle) (funcao_chave : ℚ → Option ℚ) : ℚ :=
  if dados.length < 5 then 0
  else
    let pares := dados.zip dados.tail
    let resultado := pares.foldl (conta_chave funcao_chave) (0, 0)
    if resultado.2 > 0 then (resultado.1 : ℚ) / (resultado.2 : ℚ) else 0

/-- Embeds `PredictionEngine.algoritmo_fibonacci_amplitude` (Phase 2). In the
rational embedding the arithmetic is total, so the `except` fallback branch
(return `abertura` unchanged) is unreachable. -/
def algoritmo_fibonacci_amplitude (abertura maxima minima : ℚ) : ℚ :=
  let meio := (maxima + minima) / 2
  if abertura < meio then
    abertura + (618/1000) * (maxima - abertura)
  else
    abertura - (618/1000) * (abertura - minima)

/-- Embeds `PredictionEngine.predizer_fase1`: dispatch on the active key name; any
other value (including the `None` held when no key was discovered) falls back
to the simple mean. -/
def predizer_fase1 (abertura maxima minima : ℚ) (chave_ativa : Option String) : ℚ :=
  if chave_ativa = some "sum_last_3" then minima + (maxima - minima) * (6/10)
  else if chave_ativa = some "1st_digit_parity" then (abertura + maxima + minima) / 3
  else if chave_ativa = some "decimal_pattern" then minima + (maxima - minima) * (382/1000)
  else if chave_ativa = some "last_integer_digit" then abertura + (maxima - abertura) * (1/2)
  else (abertura + maxima + minima) / 3

/-- The textual form of `self.chave_ativa_fase1` inside the f-string
`f"Fase 1 - {self.chave_ativa_fase1}"` (Python prints `None` for `None`). -/
def chaveStr (chave : Option String) : String :=
  match chave with
  | none => "None"
  | some c => c

/-- Embeds `PredictionEngine.fazer_predicao`. The phase defaults to 2 when
`self.fase_detectada` is unset (`self.fase_detectada or 2`); the built
dictionary is appended to `self.historico_predicoes`; `now` stands for the
`datetime.now().isoformat()` string taken during the call. -/
def fazer_predicao (s : EngineState) (abertura maxima minima : ℚ) (now : String) :
    Predicao × EngineState :=
  let fase := s.fase_detectada.getD 2
  let fechamento_pred :=
    if fase = 1 then predizer_fase1 abertura maxima minima s.chave_ativa_fase1
    else algoritmo_fibonacci_amplitude abertura maxima minima
  let algoritmo_usado :=
    if fase = 1 then "Fase 1 - " ++ chaveStr s.chave_ativa_fase1
    else "Fibonacci da Amplitude"
  let cor_pred := if fechamento_pred > abertura then "Verde" else "Vermelho"
  let posicao := if cor_pred = "Verde" then "CALL" else "PUT"
  let predicao : Predicao :=
    { fechamento_predito := roundTo 4 fechamento_pred
      cor_predita := cor_pred
      posicao := posicao
      fase_usada := fase
      algoritmo := algoritmo_usado
      timestamp := now
      abertura_usada := abertura
      maxima_usada := maxima
      minima_usada := minima }
  (predicao, { s with historico_predicoes := s.historico_predicoes ++ [predicao] })

/-- The successful result dictionary of `PredictionEngine.confirmar_resultado`. -/
structure Resultado where
  fechamento_real : ℚ
  fechamento_predito : ℚ
  erro_absoluto : ℚ
  erro_percentual : ℚ
  cor_real : String
  cor_predita : String
  acerto_cor : Bool
  assertividade_atual : ℚ
  deriving DecidableEq, Repr

/-- Return value of `confirmar_resultado`: either the error dictionary or the
full result. -/
inductive ConfirmResult where
  | erro (msg : String)
  | ok (r : Resultado)
  deriving DecidableEq, Repr

/-- Embeds `PredictionEngine.confirmar_resultado`: with an empty prediction history
it returns the error dictionary at once; otherwise it scores the latest
stored prediction against the realized close and updates the running
statistics. -/
def confirmar_resultado (s : EngineState) (fechamento_real : ℚ) :
    ConfirmResult × EngineState :=
  match s.historico_predicoes.getLast? with
  | none => (ConfirmResult.erro "Nenhuma predicao para confirmar", s)
  | some ultima =>
    let fechamento_pred := ultima.fechamento_predito
    let abertura_usada := ultima.abertura_usada
    let erro_absoluto := |fechamento_real - fechamento_pred|
    let erro_percentual :=
      if fechamento_real ≠ 0 then erro_absoluto / |fechamento_real| * 100 else 0
    let cor_real := if fechamento_real > abertura_usada then "Verde" else "Vermelho"
    let cor_pred := ultima.cor_predita
    let acerto_cor : Bool := cor_real = cor_pred
    let total := s.estatisticas.total_predicoes + 1
    let acertos := s.estatisticas.acertos + (if acerto_cor then 1 else 0)
    let assertividade := ((acertos : ℚ) / (total : ℚ)) * 100
    (ConfirmResult.ok
      { fechamento_real := fechamento_real
        fechamento_predito := fechamento_pred
        erro_absoluto := roundTo 4 erro_absoluto
        erro_percentual := roundTo 6 erro_percentual
        cor_real := cor_real
        cor_predita := cor_pred
        acerto_cor := acerto_cor
        assertividade_atual := roundTo 2 assertividade },
     { s with estatisticas :=
        { total_predicoes := total, acertos := acertos, assertividade := assertividade } })

/-- The interpolated percentile table of `AmplitudePredictor`. The dict
`self.amplitude_percentiles` is either empty (no positive historical
amplitude) or holds all six keys 10, 25, 50, 75, 90, 95, which this
structure records. -/
structure PercTable where
  p10 : ℚ
  p25 : ℚ
  p50 : ℚ
  p75 : ℚ
  p90 : ℚ
  p95 : ℚ
  deriving DecidableEq, Repr

/-- The statistics fields of an `AmplitudePredictor` instance computed once
by `_calculate_statistics` (`none` models the empty percentile dict). -/
structure AmplitudeStats where
  mean_amplitude : ℚ
  std_amplitude : ℚ
  amplitude_percentiles : Option PercTable
  deriving DecidableEq, Repr

/-- Embeds `AmplitudePredictor._get_percentile_position`: an empty table returns 50
at once; otherwise the keys are scanned in descending order 95, 90, 75, 50,
25, 10 and the first key whose stored value is at most `amplitude` is
returned, with 10 as the final default. -/
def get_percentile_position (t : Option PercTable) (amplitude : ℚ) : Nat :=
  match t with
  | none => 50
  | some t =>
    if amplitude ≥ t.p95 then 95
    else if amplitude ≥ t.p90 then 90
    else if amplitude ≥ t.p75 then 75
    else if amplitude ≥ t.p50 then 50
    else if amplitude ≥ t.p25 then 25
    else if amplitude ≥ t.p10 then 10
    else 10

/-- Embeds `AmplitudePredictor._calculate_expansion_probability`. The
`predicted_direction` argument of the Python method is accepted and, as in
the source, unused. -/
def calculate_expansion_probability
    (current_amplitude predicted_amplitude elapsed_minutes current_price
      current_high current_low predicted_close : ℚ) (_predicted_direction : String) : ℚ :=
  let growth_potential :=
    if current_amplitude > 0 then (predicted_amplitude - current_amplitude) / current_amplitude
    else 0
  let growth_factor := min 1 (max 0 growth_potential)
  let price_position :=
    if current_amplitude > 0 then (current_price - current_low) / current_amplitude
    else 1/2
  let position_factor := 1 - |price_position - 1/2| * 2
  let tratio := elapsed_minutes / 15
  let time_factor :=
    if tratio > 83/100 then 85/100
    else if tratio > 67/100 then 65/100
    else 45/100
  let prediction_factor :=
    if predicted_close > current_high ∨ predicted_close < current_low then 9/10
    else 1/2
  let expansion_prob :=
    growth_factor * (25/100) + position_factor * (20/100) +
      time_factor * (30/100) + prediction_factor * (25/100)
  max 0 (min 1 expansion_prob)

/-- Result of `AmplitudePredictor._analyze_movement_expectation`. -/
structure MovementAnalysis where
  expectation : String
  confidence : ℚ
  will_pullback : Bool
  will_gain_strength : Bool
  will_consolidate : Bool
  will_reverse_color : Bool
  deriving DecidableEq, Repr

/-- Embeds `AmplitudePredictor._analyze_movement_expectation`: the four flags are
computed independently and the expectation is the first true flag in the
order pullback, gain-strength, consolidate, reverse-color, with NEUTRAL as
fallback. -/
def analyze_movement_expectation
    (current_price current_high current_low predicted_close : ℚ)
    (predicted_direction : String)
    (price_position predicted_price_position expansion_probability : ℚ) :
    MovementAnalysis :=
  let price_to_prediction_distance := |predicted_close - current_price|
  let current_amplitude := current_high - current_low
  let distance_ratio :=
    if current_amplitude > 0 then price_to_prediction_distance / current_amplitude else 0
  let will_pullback : Bool :=
    (decide (price_position > 75/100) && decide (predicted_price_position < 60/100)) ||
      (decide (price_position < 25/100) && decide (predicted_price_position > 40/100))
  let will_gain_strength : Bool :=
    decide (expansion_probability > 7/10) && decide (distance_ratio > 3/10)
  let will_consolidate : Bool :=
    decide (expansion_probability < 4/10) && decide (distance_ratio < 2/10)
  let current_color :=
    if current_price > (current_high + current_low) / 2 then "green" else "red"
  let predicted_color := if predicted_direction = "compra" then "green" else "red"
  let will_reverse_color : Bool :=
    decide (current_color ≠ predicted_color) && decide (expansion_probability > 6/10)
  let resumo :=
    if will_pullback then ("PULLBACK", (75 : ℚ)/100)
    else if will_gain_strength then ("GAIN_STRENGTH", (80 : ℚ)/100)
    else if will_consolidate then ("CONSOLIDATE", (70 : ℚ)/100)
    else if will_reverse_color then ("REVERSE_COLOR", (65 : ℚ)/100)
    else ("NEUTRAL", (50 : ℚ)/100)
  { expectation := resumo.1
    confidence := resumo.2
    will_pullback := will_pullback
    will_gain_strength := will_gain_strength
    will_consolidate := will_consolidate
    will_reverse_color := will_reverse_color }

/-- Result of `AmplitudePredictor._determine_entry_strategy`. -/
structure EntryStrategy where
  strategy : String
  reason : String
  confidence_modifier : ℤ
  stake_type : String
  risk_level : String
  deriving DecidableEq, Repr

/-- Embeds `AmplitudePredictor._determine_entry_strategy`: first-match-wins cascade
HIGH_CONFIDENCE, DEFENSE, WAIT, HEDGE, then the NEUTRAL fallback. The time
gate of HIGH_CONFIDENCE is `elapsed_minutes > 12.5`. -/
def determine_entry_strategy (_predicted_direction : String)
    (movement_analysis : MovementAnalysis)
    (expansion_probability _price_position elapsed_minutes : ℚ) : EntryStrategy :=
  let expectation := movement_analysis.expectation
  let movement_confidence := movement_analysis.confidence
  if expectation = "GAIN_STRENGTH" ∧ expansion_probability > 75/100 ∧
      movement_confidence > 75/100 ∧ elapsed_minutes > 25/2 then
    { strategy := "HIGH_CONFIDENCE"
      reason := "Movimento forte esperado com alta confianca nos ultimos minutos"
      confidence_modifier := 25
      stake_type := "HIGH"
      risk_level := "MEDIUM" }
  else if expectation = "PULLBACK" ∨ expectation = "REVERSE_COLOR" then
    { strategy := "DEFENSE"
      reason := "Recuo ou reversao esperada - entrada defensiva"
      confidence_modifier := -20
      stake_type := "LOW"
      risk_level := "HIGH" }
  else if expectation = "CONSOLIDATE" then
    { strategy := "WAIT"
      reason := "Candle deve consolidar - evitar entrada"
      confidence_modifier := -30
      stake_type := "NONE"
      risk_level := "HIGH" }
  else if expansion_probability > 1/2 ∧ expansion_probability < 75/100 then
    { strategy := "HEDGE"
      reason := "Probabilidade moderada - usar hedge"
      confidence_modifier := 0
      stake_type := "NORMAL"
      risk_level := "MEDIUM" }
  else
    { strategy := "NEUTRAL"
      reason := "Sem sinal claro - seguir predicao padrao"
      confidence_modifier := 0
      stake_type := "NORMAL"
      risk_level := "MEDIUM" }

/-- Result of `AmplitudePredictor._generate_strategic_recommendation`. -/
structure Recommendation where
  movement_expectation : String
  movement_confidence : ℚ
  will_pullback : Bool
  will_gain_strength : Bool
  will_consolidate : Bool
  will_reverse_color : Bool
  entry_strategy : String
  entry_reason : String
  confidence_modifier : ℤ
  suggested_stake_type : String
  risk_level : String
  deriving DecidableEq, Repr

/-- Embeds `AmplitudePredictor._generate_strategic_recommendation`. -/
def generate_strategic_recommendation
    (current_price current_high current_low predicted_close : ℚ)
    (predicted_direction : String)
    (_predicted_amplitude _current_amplitude expansion_probability elapsed_minutes
      price_position predicted_price_position : ℚ) : Recommendation :=
  let movement_analysis :=
    analyze_movement_expectation current_price current_high current_low predicted_close
      predicted_direction price_position predicted_price_position expansion_probability
  let entry_strategy :=
    determine_entry_strategy predicted_direction movement_analysis
      expansion_probability price_position elapsed_minutes
  { movement_expectation := movement_analysis.expectation
    movement_confidence := movement_analysis.confidence
    will_pullback := movement_analysis.will_pullback
    will_gain_strength := movement_analysis.will_gain_strength
    will_consolidate := movement_analysis.will_consolidate
    will_reverse_color := movement_analysis.will_reverse_color
    entry_strategy := entry_strategy.strategy
    entry_reason := entry_strategy.reason
    confidence_modifier := entry_strategy.confidence_modifier
    suggested_stake_type := entry_strategy.stake_type
    risk_level := entry_strategy.risk_level }

/-- Result dictionary of `AmplitudePredictor.predict_final_amplitude`. -/
structure AmplitudePrediction where
  predicted_amplitude : ℚ
  current_amplitude : ℚ
  confidence : ℚ
  expansion_probability : ℚ
  will_expand : Bool
  growth_potential : ℚ
  price_position : ℚ
  price_position_label : String
  predicted_price_position : ℚ
  percentile_position : Nat
  recommendation : Recommendation
  deriving DecidableEq, Repr

/-- Embeds `AmplitudePredictor.predict_final_amplitude`: the three blended amplitude
estimates, the confidence, the expansion probability, price positions and
labels, the percentile position and the strategic recommendation, exactly as
assembled in the source. -/
def predict_final_amplitude (stats : AmplitudeStats)
    (current_high current_low current_price elapsed_minutes predicted_close : ℚ)
    (predicted_direction : String) : AmplitudePrediction :=
  let current_amplitude0 := current_high - current_low
  let current_amplitude := if current_amplitude0 = 0 then 1/100 else current_amplitude0
  let tratio := elapsed_minutes / 15
  let growth_factor :=
    if tratio < 33/100 then (18 : ℚ)/10
    else if tratio < 67/100 then 14/10
    else if tratio < 83/100 then 12/10
    else 115/100
  let predicted_amplitude_linear := current_amplitude * growth_factor
  let predicted_amplitude_mean :=
    if stats.mean_amplitude > 0 then
      let amplitude_ratio := current_amplitude / stats.mean_amplitude
      if amplitude_ratio > 15/10 then current_amplitude * (105/100)
      else if amplitude_ratio < 5/10 then stats.mean_amplitude * (8/10)
      else stats.mean_amplitude
    else predicted_amplitude_linear
  let predicted_amplitude_from_close :=
    if predicted_close > current_high then (predicted_close - current_low) * (11/10)
    else if predicted_close < current_low then (current_high - predicted_close) * (11/10)
    else current_amplitude * (105/100)
  let predicted_amplitude :=
    (3/10) * predicted_amplitude_linear + (3/10) * predicted_amplitude_mean +
      (4/10) * predicted_amplitude_from_close
  let confidence := min 95 (40 + tratio * 60)
  let expansion_probability :=
    calculate_expansion_probability current_amplitude predicted_amplitude elapsed_minutes
      current_price current_high current_low predicted_close predicted_direction
  let price_position :=
    if current_amplitude > 0 then (current_price - current_low) / current_amplitude else 1/2
  let price_position_label :=
    if price_position > 7/10 then "TOP"
    else if price_position < 3/10 then "BOTTOM"
    else "MIDDLE"
  let predicted_price_position :=
    if current_amplitude > 0 then (predicted_close - current_low) / current_amplitude else 1/2
  let recommendation :=
    generate_strategic_recommendation current_price current_high current_low predicted_close
      predicted_direction predicted_amplitude current_amplitude expansion_probability
      elapsed_minutes price_position predicted_price_position
  { predicted_amplitude := roundTo 4 predicted_amplitude
    current_amplitude := roundTo 4 current_amplitude
    confidence := roundTo 2 confidence
    expansion_probability := roundTo 4 expansion_probability
    will_expand := decide (expansion_probability > 6/10)
    growth_potential :=
      if current_amplitude > 0 then
        roundTo 4 ((predicted_amplitude - current_amplitude) / current_amplitude)
      else 0
    price_position := roundTo 4 price_position
    price_position_label := price_position_label
    predicted_price_position := roundTo 4 predicted_price_position
    percentile_position := get_percentile_position stats.amplitude_percentiles predicted_amplitude
    recommendation := recommendation }

/-! Auxiliary definitions used to state and settle the claims. -/

/-- Every field of a `fazer_predicao` result except the wall-clock
`timestamp`. -/
def Predicao.observable (p : Predicao) :
    ℚ × String × String × Nat × String × ℚ × ℚ × ℚ :=
  (p.fechamento_predito, p.cor_predita, p.posicao, p.fase_usada, p.algoritmo,
   p.abertura_usada, p.maxima_usada, p.minima_usada)

/-- Threads an arbitrary list of prior `fazer_predicao` calls
(open, high, low, timestamp) through the engine state: the call history of an
instance. -/
def runCalls (s : EngineState) : List (ℚ × ℚ × ℚ × String) → EngineState
  | [] => s
  | c :: rest => runCalls (fazer_predicao s c.1 c.2.1 c.2.2.1 c.2.2.2).2 rest

/-- Modelled from the spec: the expansion probability as §4.4 item 4 words
it, with every factor — including the position-symmetry component — clamped
to [0,1] before weighting. The source does not clamp the position factor;
this definition exists only to be compared against
`calculate_expansion_probability`. -/
def calculate_expansion_probability_specReading
    (current_amplitude predicted_amplitude elapsed_minutes current_price
      current_high current_low predicted_close : ℚ) : ℚ :=
  let growth_potential :=
    if current_amplitude > 0 then (predicted_amplitude - current_amplitude) / current_amplitude
    else 0
  let growth_factor := max 0 (min 1 growth_potential)
  let price_position :=
    if current_amplitude > 0 then (current_price - current_low) / current_amplitude
    else 1/2
  let position_factor := max 0 (min 1 (1 - |price_position - 1/2| * 2))
  let tratio := elapsed_minutes / 15
  let time_factor :=
    if tratio > 83/100 then (85 : ℚ)/100
    else if tratio > 67/100 then 65/100
    else 45/100
  let prediction_factor :=
    if predicted_close > current_high ∨ predicted_close < current_low then (9 : ℚ)/10
    else 1/2
  let expansion_prob :=
    growth_factor * (25/100) + position_factor * (20/100) +
      time_factor * (30/100) + prediction_factor * (25/100)
  max 0 (min 1 expansion_prob)

/-- Stored amplitude value of a percentile key of the table. -/
def percKeyValue (t : PercTable) (k : Nat) : ℚ :=
  if k = 95 then t.p95
  else if k = 90 then t.p90
  else if k = 75 then t.p75
  else if k = 50 then t.p50
  else if k = 25 then t.p25
  else t.p10

/-- Modelled from the spec: scan a list of percentile keys and return the
first whose stored value is at most `amplitude`, with default 10. -/
def scanFirstLeq (t : PercTable) (amplitude : ℚ) : List Nat → Nat
  | [] => 10
  | k :: rest => if percKeyValue t k ≤ amplitude then k else scanFirstLeq t amplitude rest

/-- A consecutive pair is usable when the key function does not raise on the
prior open. -/
def parUsavel (funcao_chave : ℚ → Option ℚ) (par : Candle × Candle) : Bool :=
  (funcao_chave par.1.abertura).isSome

/-- A candle's realized color is green exactly when its close exceeds its
open. -/
def corVerde (c : Candle) : Bool :=
  decide (c.fechamento > c.abertura)

/-- A usable pair scores a hit when the color predicted from the key value of
the prior open (green iff the scalar exceeds 0.5) matches the realized color
of the current candle. -/
def parAcerta (funcao_chave : ℚ → Option ℚ) (par : Candle × Candle) : Bool :=
  match funcao_chave par.1.abertura with
  | none => false
  | some v => decide (v > 1/2) == corVerde par.2

/-- The usable consecutive (prior, current) pairs of a dataset. -/
def paresUsaveis (dados : List Candle) (funcao_chave : ℚ → Option ℚ) :
    List (Candle × Candle) :=
  (dados.zip dados.tail).filter (parUsavel funcao_chave)

/-- The hits among the consecutive pairs of a dataset. -/
def paresAcertos (dados : List Candle) (funcao_chave : ℚ → Option ℚ) :
    List (Candle × Candle) :=
  (dados.zip dados.tail).filter (parAcerta funcao_chave)

/-- A dataset of five identical green candles (close above open). -/
def dados5 : List Candle :=
  [⟨1, 2, 0, 2⟩, ⟨1, 2, 0, 2⟩, ⟨1, 2, 0, 2⟩, ⟨1, 2, 0, 2⟩, ⟨1, 2, 0, 2⟩]

/-- The constant key function returning 1 (it never raises and always
predicts green). -/
def chaveConstUm : ℚ → Option ℚ := fun _ => some 1

/-- The movement analysis produced when only the gain-strength flag fires. -/
def maGain : MovementAnalysis :=
  { expectation := "GAIN_STRENGTH"
    confidence := 80/100
    will_pullback := false
    will_gain_strength := true
    will_consolidate := false
    will_reverse_color := false }

/-! Theorems. -/

/-- Clamping to [0,1] stays above 0. -/
theorem clamp01_nonneg (x : ℚ) : 0 ≤ max 0 (min 1 x) :=
  le_max_left 0 _

/-- Clamping to [0,1] stays below 1. -/
theorem clamp01_le_one (x : ℚ) : max 0 (min 1 x) ≤ 1 :=
  max_le (by norm_num) (min_le_left _ _)

/-- C2, counterexample: at open 10, high 20, low 0 the midpoint equals the
open, so the bearish branch applies and the Phase-2 prediction is 3.82, not
the 16.18 the claim asserts for this input. -/
theorem C2_counterexample :
    algoritmo_fibonacci_amplitude 10 20 0 = 382/100 ∧ (382 : ℚ)/100 ≠ 1618/100 := by
  constructor
  · norm_num [algoritmo_fibonacci_amplitude]
  · norm_num

/-- C2, amended: the Phase-2 prediction follows the 0.618 retracement formula
for every input; at open 10, high 20, low 0 the open is not below the
midpoint 10, so the result is 10 − 0.618·10 = 3.82, while the claimed 16.18
arises for inputs whose open lies below the midpoint, such as open 10,
high 20, low 5. -/
theorem C2_fibonacci_formula :
    (∀ abertura maxima minima : ℚ,
      algoritmo_fibonacci_amplitude abertura maxima minima =
        if abertura < (maxima + minima) / 2 then
          abertura + (618/1000) * (maxima - abertura)
        else
          abertura - (618/1000) * (abertura - minima)) ∧
    algoritmo_fibonacci_amplitude 10 20 0 = 382/100 ∧
    algoritmo_fibonacci_amplitude 10 20 5 = 1618/100 := by
  refine ⟨fun a mx mn => rfl, ?_, ?_⟩
  · norm_num [algoritmo_fibonacci_amplitude]
  · norm_num [algoritmo_fibonacci_amplitude]

/-- C5, counterexample: with current amplitude 1 (high 1, low 0), predicted
amplitude 2, elapsed 13 minutes, current price 2 and predicted close 3, the
position-symmetry component is −2 and enters the weighted sum unclamped: the
source yields 0.33 while the claim's all-factors-clamped reading yields
0.73. -/
theorem C5_counterexample :
    calculate_expansion_probability 1 2 13 2 1 0 3 "compra" = 33/100 ∧
    calculate_expansion_probability_specReading 1 2 13 2 1 0 3 = 73/100 ∧
    (33 : ℚ)/100 ≠ 73/100 := by
  refine ⟨?_, ?_, by norm_num⟩
  · norm_num [calculate_expansion_probability]
    rw [abs_of_nonneg (show (0:ℚ) ≤ 3/2 by norm_num)]
    norm_num [max_def, min_def]
  · norm_num [calculate_expansion_probability_specReading]
    rw [abs_of_nonneg (show (0:ℚ) ≤ 3/2 by norm_num)]
    norm_num [max_def, min_def]

/-- C5, amended: the expansion probability is the weighted sum of the four
factors with weights 0.25, 0.20, 0.30, 0.25, where the growth factor is
clamped to [0,1] before weighting and the time and breakout factors take
values in [0,1] by construction, but the position-symmetry component
1 − 2·|price_position − 0.5| enters unclamped (negative when the price sits
outside [low, high]); only the final result is clamped to [0,1]. -/
theorem C5_expansion_probability (ca pa em cp ch cl pc : ℚ) (d : String) :
    calculate_expansion_probability ca pa em cp ch cl pc d =
      max 0 (min 1 (
        (min 1 (max 0 (if ca > 0 then (pa - ca) / ca else 0))) * (25/100) +
        (1 - |(if ca > 0 then (cp - cl) / ca else 1/2) - 1/2| * 2) * (20/100) +
        (if em / 15 > 83/100 then (85 : ℚ)/100
          else if em / 15 > 67/100 then 65/100 else 45/100) * (30/100) +
        (if pc > ch ∨ pc < cl then (9 : ℚ)/10 else 1/2) * (25/100))) ∧
    0 ≤ calculate_expansion_probability ca pa em cp ch cl pc d ∧
    calculate_expansion_probability ca pa em cp ch cl pc d ≤ 1 := by
  refine ⟨rfl, ?_, ?_⟩
  · exact clamp01_nonneg _
  · exact clamp01_le_one _

/-- C6, counterexample: on an empty percentile table the source returns 50,
not the 10 the claim asserts. -/
theorem C6_counterexample :
    get_percentile_position none 5 = 50 ∧ get_percentile_position none 5 ≠ 10 := by
  exact ⟨rfl, by decide⟩

/-- C6, amended: with a populated table the position is the first key of the
descending scan 95, 90, 75, 50, 25, 10 whose stored value is at most the
predicted amplitude, with default 10 when none matches; an empty table
returns 50. -/
theorem C6_percentile_scan (t : PercTable) (amp e : ℚ) :
    get_percentile_position (some t) amp = scanFirstLeq t amp [95, 90, 75, 50, 25, 10] ∧
    get_percentile_position none e = 50 := by
  refine ⟨?_, rfl⟩
  simp only [get_percentile_position, scanFirstLeq, percKeyValue, ge_iff_le]
  norm_num

/-- C8: phase detection returns 1 on the empty dataset, 2 when the mean of
the open values exceeds 1000, and 1 otherwise; being a total function of the
dataset, it raises no error. -/
theorem C8_detectar_fase (s : EngineState) (dados : List Candle) :
    (detectar_fase s dados).1 =
      if dados = [] then 1
      else if (dados.map Candle.abertura).sum / (dados.length : ℚ) > 1000 then 2
      else 1 := by
  unfold detectar_fase mediaAbertura
  cases dados <;> simp

/-- C3: movement classification is first-match-wins in the fixed order
PULLBACK (confidence 0.75), GAIN_STRENGTH (0.80), CONSOLIDATE (0.70),
REVERSE_COLOR (0.65), NEUTRAL (0.50), over independently computed flags; the
pullback flag holds exactly under the claimed position conditions, so with
price position 0.9 and predicted price position 0.5 the expectation is
PULLBACK with confidence 0.75 regardless of the expansion probability. -/
theorem C3_movement_cascade (cp ch cl pc : ℚ) (d : String) (pp ppp ep : ℚ) :
    (((analyze_movement_expectation cp ch cl pc d pp ppp ep).expectation,
      (analyze_movement_expectation cp ch cl pc d pp ppp ep).confidence) =
      if (analyze_movement_expectation cp ch cl pc d pp ppp ep).will_pullback then
        ("PULLBACK", (75 : ℚ)/100)
      else if (analyze_movement_expectation cp ch cl pc d pp ppp ep).will_gain_strength then
        ("GAIN_STRENGTH", (80 : ℚ)/100)
      else if (analyze_movement_expectation cp ch cl pc d pp ppp ep).will_consolidate then
        ("CONSOLIDATE", (70 : ℚ)/100)
      else if (analyze_movement_expectation cp ch cl pc d pp ppp ep).will_reverse_color then
        ("REVERSE_COLOR", (65 : ℚ)/100)
      else ("NEUTRAL", (50 : ℚ)/100)) ∧
    (analyze_movement_expectation cp ch cl pc d pp ppp ep).will_pullback =
      ((decide (pp > 75/100) && decide (ppp < 60/100)) ||
        (decide (pp < 25/100) && decide (ppp > 40/100))) ∧
    (analyze_movement_expectation cp ch cl pc d (9/10) (1/2) ep).expectation = "PULLBACK" ∧
    (analyze_movement_expectation cp ch cl pc d (9/10) (1/2) ep).confidence = 75/100 := by
  refine ⟨Prod.mk.eta, rfl, ?_, ?_⟩ <;> norm_num [analyze_movement_expectation]

/-- C4, counterexample: with elapsed time 12.498 minutes the elapsed fraction
0.8332 exceeds the claimed 0.833 threshold and all other HIGH_CONFIDENCE
conditions hold (a reachable GAIN_STRENGTH analysis with confidence 0.80 and
expansion probability 0.8), yet the source requires elapsed_minutes > 12.5
and falls through to NEUTRAL. -/
theorem C4_counterexample :
    analyze_movement_expectation (1/2) 1 0 (9/10) "venda" (1/2) (9/10) (8/10) = maGain ∧
    (6249 : ℚ)/500 / 15 > 833/1000 ∧
    maGain.expectation = "GAIN_STRENGTH" ∧
    ((8 : ℚ)/10 > 75/100 ∧ maGain.confidence > 75/100) ∧
    (determine_entry_strategy "venda" maGain (8/10) (1/2) (6249/500)).strategy = "NEUTRAL" ∧
    (determine_entry_strategy "venda" maGain (8/10) (1/2) (6249/500)).strategy ≠
      "HIGH_CONFIDENCE" := by
  refine ⟨?_, by norm_num, rfl, ⟨by norm_num, by norm_num [maGain]⟩, ?_, ?_⟩
  · norm_num [analyze_movement_expectation, maGain]
    rw [show |(2 : ℚ)/5| = 2/5 from abs_of_nonneg (by norm_num)]
    norm_num
    simp
  · norm_num [determine_entry_strategy, maGain]
    simp
  · norm_num [determine_entry_strategy, maGain]
    simp

/-- C4, amended: entry-strategy selection is first-match-wins in the order
HIGH_CONFIDENCE, DEFENSE, WAIT, HEDGE, NEUTRAL; HIGH_CONFIDENCE (modifier
+25, stake HIGH, risk MEDIUM) is returned exactly when the expectation is
GAIN_STRENGTH, the expansion probability and movement confidence exceed 0.75
and the elapsed time exceeds 12.5 minutes (elapsed fraction above 5/6, not
0.833); HEDGE (modifier 0, stake NORMAL, risk MEDIUM) exactly when no
earlier rule matched and the expansion probability lies strictly between 0.5
and 0.75. -/
theorem C4_entry_strategy (d : String) (ma : MovementAnalysis) (ep pp em : ℚ) :
    ((determine_entry_strategy d ma ep pp em).strategy = "HIGH_CONFIDENCE" ↔
      (ma.expectation = "GAIN_STRENGTH" ∧ ep > 75/100 ∧ ma.confidence > 75/100 ∧
        em > 25/2)) ∧
    ((determine_entry_strategy d ma ep pp em).strategy = "HIGH_CONFIDENCE" →
      (determine_entry_strategy d ma ep pp em).confidence_modifier = 25 ∧
      (determine_entry_strategy d ma ep pp em).stake_type = "HIGH" ∧
      (determine_entry_strategy d ma ep pp em).risk_level = "MEDIUM") ∧
    ((determine_entry_strategy d ma ep pp em).strategy = "HEDGE" ↔
      (¬(ma.expectation = "GAIN_STRENGTH" ∧ ep > 75/100 ∧ ma.confidence > 75/100 ∧
          em > 25/2) ∧
        ¬(ma.expectation = "PULLBACK" ∨ ma.expectation = "REVERSE_COLOR") ∧
        ma.expectation ≠ "CONSOLIDATE" ∧ 1/2 < ep ∧ ep < 75/100)) ∧
    ((determine_entry_strategy d ma ep pp em).strategy = "HEDGE" →
      (determine_entry_strategy d ma ep pp em).confidence_modifier = 0 ∧
      (determine_entry_strategy d ma ep pp em).stake_type = "NORMAL" ∧
      (determine_entry_strategy d ma ep pp em).risk_level = "MEDIUM") := by
  by_cases h1 : ma.expectation = "GAIN_STRENGTH" ∧ ep > 75/100 ∧ ma.confidence > 75/100 ∧
      em > 25/2 <;>
    by_cases h2 : ma.expectation = "PULLBACK" ∨ ma.expectation = "REVERSE_COLOR" <;>
      by_cases h3 : ma.expectation = "CONSOLIDATE" <;>
        by_cases h4 : (2 : ℚ)⁻¹ < ep ∧ ep < 75/100 <;>
          simp [determine_entry_strategy, h1, h2, h3, h4]

/-- C4, witness: at elapsed time 13 minutes under the same conditions the
HIGH_CONFIDENCE rule fires with modifier +25 and stake tier HIGH. -/
theorem C4_entry_strategy_witness :
    (determine_entry_strategy "venda" maGain (8/10) (1/2) 13).strategy = "HIGH_CONFIDENCE" ∧
    (determine_entry_strategy "venda" maGain (8/10) (1/2) 13).confidence_modifier = 25 ∧
    (determine_entry_strategy "venda" maGain (8/10) (1/2) 13).stake_type = "HIGH" := by
  have h := C4_entry_strategy "venda" maGain (8/10) (1/2) 13
  have hs : (determine_entry_strategy "venda" maGain (8/10) (1/2) 13).strategy =
      "HIGH_CONFIDENCE" :=
    h.1.mpr ⟨rfl, by norm_num, by norm_num [maGain], by norm_num⟩
  exact ⟨hs, (h.2.1 hs).1, (h.2.1 hs).2.1⟩

/-- The hit/total fold of the Phase-1 backtest equals declarative filter
counts over the consecutive pairs. -/
theorem foldl_conta_chave (funcao_chave : ℚ → Option ℚ)
    (l : List (Candle × Candle)) (a t : Nat) :
    l.foldl (conta_chave funcao_chave) (a, t) =
      (a + (l.filter (parAcerta funcao_chave)).length,
        t + (l.filter (parUsavel funcao_chave)).length) := by
  induction l generalizing a t with
  | nil => simp
  | cons p rest ih =>
    simp only [List.foldl_cons, List.filter_cons]
    rcases hfc : funcao_chave p.1.abertura with _ | v
    · simp [conta_chave, hfc, parAcerta, parUsavel, ih]
    · have hstep : conta_chave funcao_chave (a, t) p =
          (a + (if parAcerta funcao_chave p then 1 else 0), t + 1) := by
        simp only [conta_chave, hfc, parAcerta, corVerde]
        by_cases hv : v > 1/2 <;> by_cases hc : p.2.fechamento > p.2.abertura <;>
          simp [hv, hc]
      have hu : parUsavel funcao_chave p = true := by simp [parUsavel, hfc]
      rw [hstep, ih, hu]
      by_cases ha : parAcerta funcao_chave p = true <;>
        simp [ha, Prod.ext_iff] <;> omega

/-- C7, counterexample: five candles give only four usable pairs — fewer
than the five the claim requires for a nonzero score — yet the source, whose
guard is on the candle count, still scores them: with an always-green key on
five green candles the score is 1, not 0. -/
theorem C7_counterexample :
    (paresUsaveis dados5 chaveConstUm).length = 4 ∧
    testar_chave_fase1 dados5 chaveConstUm = 1 ∧ (1 : ℚ) ≠ 0 := by
  refine ⟨by rfl, ?_, by norm_num⟩
  norm_num [testar_chave_fase1, dados5, chaveConstUm, conta_chave]

/-- C7, amended: a key's score is hits divided by evaluated pairs over all
consecutive (prior, current) pairs — predicting green exactly when the key
value of the prior open exceeds 0.5 and scoring against green-iff-close-
above-open — except that the score is 0 whenever the dataset has fewer than
5 candles (not 5 usable pairs), and 0 when no usable pair exists. -/
theorem C7_backtest_score (dados : List Candle) (funcao_chave : ℚ → Option ℚ) :
    testar_chave_fase1 dados funcao_chave =
      if dados.length < 5 then 0
      else if 0 < (paresUsaveis dados funcao_chave).length then
        ((paresAcertos dados funcao_chave).length : ℚ) /
          ((paresUsaveis dados funcao_chave).length : ℚ)
      else 0 := by
  unfold testar_chave_fase1
  split
  · rfl
  · dsimp only
    rw [foldl_conta_chave]
    simp [paresUsaveis, paresAcertos, -Prod.mk_zero_zero]

/-- Applying any sequence of prediction calls leaves the cached phase and
active key of the engine state untouched. -/
theorem runCalls_config (calls : List (ℚ × ℚ × ℚ × String)) (s : EngineState) :
    (runCalls s calls).fase_detectada = s.fase_detectada ∧
    (runCalls s calls).chave_ativa_fase1 = s.chave_ativa_fase1 := by
  induction calls generalizing s with
  | nil => exact ⟨rfl, rfl⟩
  | cons c rest ih => exact ih _

/-- C1, counterexample: two calls with identical inputs and identical state
are not byte-identical, because the result embeds the wall-clock timestamp
of the call. -/
theorem C1_counterexample :
    (fazer_predicao initState 10 20 0 "2024-01-01T00:00:00.000001").1 ≠
      (fazer_predicao initState 10 20 0 "2024-01-01T00:00:00.000002").1 := by
  intro h
  have h2 := congrArg Predicao.timestamp h
  simp [fazer_predicao] at h2

/-- C1, amended: for a fixed cached phase and active key, every field of the
close-price prediction except the wall-clock timestamp is identical across
calls, regardless of any number of prior prediction calls on the instance;
the amplitude prediction is a pure function of the statistics it reads (the
mean and the percentile table) and the call inputs. -/
theorem C1_determinism (s : EngineState) (calls : List (ℚ × ℚ × ℚ × String))
    (abertura maxima minima : ℚ) (t1 t2 : String)
    (stats1 stats2 : AmplitudeStats)
    (hm : stats1.mean_amplitude = stats2.mean_amplitude)
    (hp : stats1.amplitude_percentiles = stats2.amplitude_percentiles)
    (ch cl cp em pc : ℚ) (d : String) :
    Predicao.observable (fazer_predicao (runCalls s calls) abertura maxima minima t1).1 =
      Predicao.observable (fazer_predicao s abertura maxima minima t2).1 ∧
    predict_final_amplitude stats1 ch cl cp em pc d =
      predict_final_amplitude stats2 ch cl cp em pc d := by
  constructor
  · obtain ⟨hf, hc⟩ := runCalls_config calls s
    simp [fazer_predicao, Predicao.observable, hf, hc]
  · obtain ⟨m1, sd1, p1⟩ := stats1
    obtain ⟨m2, sd2, p2⟩ := stats2
    dsimp only at hm hp
    subst hm
    subst hp
    rfl

/-- C1, witness: after one prior call the observable result of a repeated
call coincides with a fresh instance's, and two statistics records differing
only in the unused standard deviation give identical amplitude
predictions. -/
theorem C1_determinism_witness :
    Predicao.observable (fazer_predicao (runCalls initState [(1, 2, 0, "a")]) 10 20 0 "t1").1 =
      Predicao.observable (fazer_predicao initState 10 20 0 "t2").1 ∧
    predict_final_amplitude ⟨1, 0, none⟩ 1 0 (1/2) 13 (9/10) "venda" =
      predict_final_amplitude ⟨1, 5, none⟩ 1 0 (1/2) 13 (9/10) "venda" :=
  C1_determinism initState [(1, 2, 0, "a")] 10 20 0 "t1" "t2"
    ⟨1, 0, none⟩ ⟨1, 5, none⟩ rfl rfl 1 0 (1/2) 13 (9/10) "venda"

/-- C9: phase detection on an empty dataset returns 1 but leaves the cached
phase unset, and every close-price prediction on such an instance defaults
to phase 2 ("Fibonacci da Amplitude") — not the Phase-1 default the
classifier just returned. -/
theorem C9_phase_default (s : EngineState) (h : s.fase_detectada = none)
    (abertura maxima minima : ℚ) (t : String) :
    (detectar_fase s []).1 = 1 ∧
    (detectar_fase s []).2.fase_detectada = none ∧
    (fazer_predicao (detectar_fase s []).2 abertura maxima minima t).1.fase_usada = 2 ∧
    (fazer_predicao (detectar_fase s []).2 abertura maxima minima t).1.algoritmo =
      "Fibonacci da Amplitude" ∧
    (fazer_predicao (detectar_fase s []).2 abertura maxima minima t).1.fechamento_predito =
      roundTo 4 (algoritmo_fibonacci_amplitude abertura maxima minima) := by
  have hd : detectar_fase s [] = (1, s) := rfl
  rw [hd]
  refine ⟨rfl, h, ?_, ?_, ?_⟩ <;> simp [fazer_predicao, h]

/-- C9, witness: on a freshly initialized engine fed the empty dataset, the
prediction call uses phase 2 and the Fibonacci algorithm. -/
theorem C9_phase_default_witness :
    (fazer_predicao (detectar_fase initState []).2 10 20 0 "t").1.fase_usada = 2 ∧
    (fazer_predicao (detectar_fase initState []).2 10 20 0 "t").1.algoritmo =
      "Fibonacci da Amplitude" :=
  ⟨(C9_phase_default initState rfl 10 20 0 "t").2.2.1,
    (C9_phase_default initState rfl 10 20 0 "t").2.2.2.1⟩

/-- C10: confirming a result with no stored prediction returns the error
dictionary and leaves the whole engine state — running statistics and
prediction history included — unchanged. -/
theorem C10_confirm_empty (s : EngineState) (h : s.historico_predicoes = [])
    (fechamento_real : ℚ) :
    (confirmar_resultado s fechamento_real).1 =
      ConfirmResult.erro "Nenhuma predicao para confirmar" ∧
    (confirmar_resultado s fechamento_real).2 = s := by
  have h2 : s.historico_predicoes.getLast? = none := by rw [h]; rfl
  constructor <;> simp [confirmar_resultado, h2]

/-- C10, witness: on the freshly initialized engine the confirmation call
errors and the state is unchanged. -/
theorem C10_confirm_empty_witness :
    (confirmar_resultado initState 5).1 =
      ConfirmResult.erro "Nenhuma predicao para confirmar" ∧
    (confirmar_resultado initState 5).2 = initState :=
  C10_confirm_empty initState rfl 5

end SchimidtTrader
